import Mathlib

set_option maxRecDepth 8192

/-!
Verification of the string/path conversion layer and the dynamic call
dispatcher of a Godot FFI binding.

The host-side wrapper logic (bound mapping of `NodePath::slice`, the
bounds checks of `get_name`/`get_subname`, and the `From` conversion
routing) is embedded directly from `godot-core/src/builtin/string/node_path.rs`.
Engine-owned behaviour (parsing, equality, hashing, slicing of the opaque
value, and the dynamic call machinery) is not part of the repository's
sources and is modelled from the specification; every such definition is
marked `Modelled from the spec:` in its doc comment.
-/

/- Character-list string helpers (the engine's strings are byte/char sequences). -/

/-- Splits a character list on a separator character; always returns at least one
(possibly empty) segment, mirroring textual splitting. -/
def splitOnChar (sep : Char) (l : List Char) : List (List Char) :=
  l.foldr
    (fun c acc =>
      match acc with
      | [] => [[c]]
      | cur :: rest => if c = sep then [] :: cur :: rest else (c :: cur) :: rest)
    [[]]

/-- Truncates a string at its first embedded NUL terminator byte. -/
def truncAtNul (s : String) : String :=
  String.mk (s.toList.takeWhile (fun c => c != '\x00'))

/-- Checks whether `pat` occurs as a contiguous run inside `l`. -/
def listContainsRun (pat : List Char) : List Char → Bool
  | [] => pat.isEmpty
  | c :: rest => pat.isPrefixOf (c :: rest) || listContainsRun pat rest

/-- Checks whether string `pat` occurs as a substring of `s`. -/
def containsSub (s pat : String) : Bool :=
  listContainsRun pat.toList s.toList

/-- Checks whether string `s` ends with `post`. -/
def strEndsWith (s post : String) : Bool :=
  post.toList.reverse.isPrefixOf s.toList.reverse

/-- Joins a list of strings with a separator. -/
def joinWith (sep : String) : List String → String
  | [] => ""
  | [x] => x
  | x :: y :: rest => x ++ sep ++ joinWith sep (y :: rest)

/- String-like built-in value types. -/

/-- The engine's general-purpose string built-in, modelled by its host text. -/
structure GString where
  text : String
deriving DecidableEq

/-- The engine's interned-name string built-in, modelled by its host text. -/
structure StringName where
  text : String
deriving DecidableEq

/-- A pre-parsed scene tree path (the structured path built-in). The engine-owned
opaque value is modelled by its canonical text, which the engine's constructor
has already truncated at the first embedded NUL terminator. -/
structure NodePath where
  text : String
deriving DecidableEq

/-- Modelled from the spec: the engine's name components of a parsed path — the
slash-separated segments of the text before the first colon (the engine's
`NodePath::get_name` accessor family is not part of the repository sources). -/
def namesOf (t : String) : List String :=
  match splitOnChar ':' t.toList with
  | [] => []
  | d :: _ => ((splitOnChar '/' d).map String.mk).filter (fun s => s != "")

/-- Modelled from the spec: the engine's subname (property) components of a parsed
path — the colon-separated segments of the text after the first colon. -/
def subnamesOf (t : String) : List String :=
  match splitOnChar ':' t.toList with
  | [] => []
  | _ :: rest => rest.map String.mk

/-- Modelled from the spec: the engine-side 64-bit name count (`InnerNodePath.get_name_count`). -/
def innerGetNameCount (p : NodePath) : Int :=
  ((namesOf p.text).length : Int)

/-- Modelled from the spec: the engine-side name accessor, only invoked in bounds. -/
def innerGetName (p : NodePath) (idx : Nat) : String :=
  (namesOf p.text).getD idx ""

/-- Modelled from the spec: the engine-side 64-bit subname count. -/
def innerGetSubnameCount (p : NodePath) : Int :=
  ((subnamesOf p.text).length : Int)

/-- Modelled from the spec: the engine-side subname accessor, only invoked in bounds. -/
def innerGetSubname (p : NodePath) (idx : Nat) : String :=
  (subnamesOf p.text).getD idx ""

/-- `NodePath::get_name_count`: narrows the engine's 64-bit count to `u32`
(the engine contract guarantees non-negativity). -/
def NodePath.get_name_count (p : NodePath) : Nat :=
  (innerGetNameCount p).toNat

/-- `NodePath::get_subname_count`: narrows the engine's 64-bit count to `u32`. -/
def NodePath.get_subname_count (p : NodePath) : Nat :=
  (innerGetSubnameCount p).toNat

/-- `NodePath::get_name`: the `u32` index is widened to `i64` and compared against
the engine count; out-of-bounds (which subsumes the empty path) yields `none`. -/
def NodePath.get_name (p : NodePath) (idx : Nat) : Option String :=
  if (idx : Int) ≥ innerGetNameCount p then none
  else some (innerGetName p idx)

/-- `NodePath::get_subname`: bounds-checked like `NodePath.get_name`. -/
def NodePath.get_subname (p : NodePath) (idx : Nat) : Option String :=
  if (idx : Int) ≥ innerGetSubnameCount p then none
  else some (innerGetSubname p idx)

/- `NodePath::slice`: translation of host range bounds to the engine's pair. -/

/-- A host-language range bound over `i64` (`std::ops::Bound<i64>`). -/
inductive RBound where
  | excluded (v : Int)
  | included (v : Int)
  | unbounded

/-- The engine's "largest representable end" sentinel, `i32::MAX` as `i64`. -/
def I32_MAX : Int := 2147483647

/-- The start-bound translation of `NodePath::slice`. -/
def sliceBegin : RBound → Int
  | .excluded s => if s = -1 then I32_MAX else s + 1
  | .included s => s
  | .unbounded => 0

/-- The end-bound translation of `NodePath::slice`. -/
def sliceEnd : RBound → Int
  | .excluded e => e
  | .included e => if e = -1 then I32_MAX else e + 1
  | .unbounded => I32_MAX

/-- Modelled from the spec: the engine's slice over the name components (the
engine's `NodePath::slice(begin, end)` is not part of the repository sources):
1-past-end convention, negative indices counting from the end, both bounds
clamped to the component count, so the sentinel end means "through the last
element". -/
def engineSliceNames (names : List String) (b e : Int) : List String :=
  let n : Int := (names.length : Int)
  let b2 : Int := if b < 0 then max 0 (n + b) else min b n
  let e2 : Int := if e < 0 then max 0 (n + e) else min e n
  (names.drop b2.toNat).take (e2 - b2).toNat

/-- `NodePath::slice` on the name components: host bounds are translated by
`sliceBegin`/`sliceEnd` and handed to the engine. -/
def sliceNames (names : List String) (startB endB : RBound) : List String :=
  engineSliceNames names (sliceBegin startB) (sliceEnd endB)

/- Conversions between the string-like built-ins (`From` impls). -/

/-- `GString::from(&str)`: the general string holds the host text. -/
def GString.fromStr (s : String) : GString := ⟨s⟩

/-- Modelled from the spec: the engine conversion StringName → GString
(`string_from_string_name`), yielding the same text. -/
def GString.fromStringNameRef (n : StringName) : GString := ⟨n.text⟩

/-- `GString::from(StringName)`: delegates to the by-reference conversion. -/
def GString.fromStringName (n : StringName) : GString :=
  GString.fromStringNameRef n

/-- Modelled from the spec: the canonical engine constructor
`node_path_from_string` (`From<&GString> for NodePath`); the engine ignores all
bytes after an embedded NUL terminator. -/
def NodePath.fromGStringRef (g : GString) : NodePath :=
  ⟨truncAtNul g.text⟩

/-- `From<GString> for NodePath`: identical to the by-reference conversion. -/
def NodePath.fromGString (g : GString) : NodePath :=
  NodePath.fromGStringRef g

/-- `From<&str> for NodePath`: `GString::from(s).into()`. -/
def NodePath.fromStr (s : String) : NodePath :=
  NodePath.fromGString (GString.fromStr s)

/-- `From<String> for NodePath`: `GString::from(s).into()`. -/
def NodePath.fromString (s : String) : NodePath :=
  NodePath.fromGString (GString.fromStr s)

/-- `From<&String> for NodePath`: `GString::from(s).into()`. -/
def NodePath.fromStringRef (s : String) : NodePath :=
  NodePath.fromGString (GString.fromStr s)

/-- `From<&StringName> for NodePath`: `Self::from(GString::from(string_name))`. -/
def NodePath.fromStringNameRef (n : StringName) : NodePath :=
  NodePath.fromGString (GString.fromStringNameRef n)

/-- `From<StringName> for NodePath`: `Self::from(GString::from(string_name))`. -/
def NodePath.fromStringName (n : StringName) : NodePath :=
  NodePath.fromGString (GString.fromStringName n)

/-- Modelled from the spec: the engine conversion NodePath → GString used by the
`Display` impl (`GString::from(&NodePath)`), yielding the canonical text. -/
def GString.fromNodePath (p : NodePath) : GString := ⟨p.text⟩

/-- `Display` for `GString`: renders the held text. -/
def GString.display (g : GString) : String := g.text

/-- `Display` for `NodePath`: materializes the canonical `GString` and delegates. -/
def NodePath.display (p : NodePath) : String :=
  GString.display (GString.fromNodePath p)

/-- Modelled from the spec: the engine equality operator on parsed paths
(`node_path_operator_equal`), comparing the parsed canonical values. -/
def nodePathEq (p q : NodePath) : Bool :=
  p.text == q.text

/-- Modelled from the spec: the engine's 32-bit string hash of the canonical
text, to which `NodePath::hash` delegates. -/
def gdStringHash (s : String) : Nat :=
  s.toList.foldl (fun h c => (h * 33 + c.toNat) % 4294967296) 5381

/-- `NodePath::hash`: delegates to the engine hash of the parsed value. -/
def NodePath.hash (p : NodePath) : Nat :=
  gdStringHash p.text

/- Theorems for the structured-path claims. -/

/-- Claim C1: each host range bound over i64 is translated exactly as specified —
excluded start of -1 maps to the sentinel, other excluded starts to start+1,
included starts unchanged, unbounded start to 0; excluded ends unchanged,
included end of -1 to the sentinel, other included ends to end+1, unbounded end
to the sentinel; consequently on names ["a","b","c"], slice(1..) yields
["b","c"] and slice(..=-1) yields the whole path. -/
theorem slice_range_bound_mapping :
    ∀ s e : Int,
      (s ≠ -1 → sliceBegin (RBound.excluded s) = s + 1) ∧
      (e ≠ -1 → sliceEnd (RBound.included e) = e + 1) ∧
      sliceBegin (RBound.excluded (-1)) = I32_MAX ∧
      sliceBegin (RBound.included s) = s ∧
      sliceBegin RBound.unbounded = 0 ∧
      sliceEnd (RBound.excluded e) = e ∧
      sliceEnd (RBound.included (-1)) = I32_MAX ∧
      sliceEnd RBound.unbounded = I32_MAX ∧
      sliceNames ["a", "b", "c"] (RBound.included 1) RBound.unbounded = ["b", "c"] ∧
      sliceNames ["a", "b", "c"] RBound.unbounded (RBound.included (-1)) = ["a", "b", "c"] := by
  intro s e
  refine ⟨fun h => ?_, fun h => ?_, by decide, rfl, rfl, rfl, by decide, rfl,
    by decide, by decide⟩
  · simp [sliceBegin, h]
  · simp [sliceEnd, h]

/-- Witness for C1 at concrete bounds 2 (excluded start) and 5 (included end). -/
theorem slice_range_bound_mapping_witness :
    sliceBegin (RBound.excluded 2) = 2 + 1 ∧ sliceEnd (RBound.included 5) = 5 + 1 :=
  ⟨(slice_range_bound_mapping 2 5).1 (by decide),
   (slice_range_bound_mapping 2 5).2.1 (by decide)⟩

/-- Claim C2: `get_name` returns `none` for any index at or beyond the name
count and the i-th name below it; symmetrically for `get_subname`; the bounds
check uniformly covers the empty path. -/
theorem get_name_bounds_check :
    ∀ (p : NodePath) (i : Nat),
      (i ≥ p.get_name_count → p.get_name i = none) ∧
      (i < p.get_name_count → p.get_name i = some ((namesOf p.text).getD i "")) ∧
      (i ≥ p.get_subname_count → p.get_subname i = none) ∧
      (i < p.get_subname_count → p.get_subname i = some ((subnamesOf p.text).getD i "")) ∧
      NodePath.get_name ⟨""⟩ i = none ∧
      NodePath.get_subname ⟨""⟩ i = none := by
  intro p i
  refine ⟨fun h => ?_, fun h => ?_, fun h => ?_, fun h => ?_, ?_, ?_⟩
  · simp only [NodePath.get_name]
    split
    · rfl
    · exfalso
      simp only [NodePath.get_name_count, innerGetNameCount] at *
      omega
  · simp only [NodePath.get_name]
    split
    · exfalso
      simp only [NodePath.get_name_count, innerGetNameCount] at *
      omega
    · rfl
  · simp only [NodePath.get_subname]
    split
    · rfl
    · exfalso
      simp only [NodePath.get_subname_count, innerGetSubnameCount] at *
      omega
  · simp only [NodePath.get_subname]
    split
    · exfalso
      simp only [NodePath.get_subname_count, innerGetSubnameCount] at *
      omega
    · rfl
  · simp only [NodePath.get_name]
    split
    · rfl
    · exfalso
      have h0 : innerGetNameCount ⟨""⟩ = 0 := by decide
      omega
  · simp only [NodePath.get_subname]
    split
    · rfl
    · exfalso
      have h0 : innerGetSubnameCount ⟨""⟩ = 0 := by decide
      omega

/-- Witness for C2 on the path "a/b:c" (two names, one subname), exercising both
the out-of-bounds and the in-bounds branch on each accessor. -/
theorem get_name_bounds_check_witness :
    NodePath.get_name ⟨"a/b:c"⟩ 5 = none ∧
    NodePath.get_name ⟨"a/b:c"⟩ 0 = some ((namesOf "a/b:c").getD 0 "") ∧
    NodePath.get_subname ⟨"a/b:c"⟩ 7 = none ∧
    NodePath.get_subname ⟨"a/b:c"⟩ 0 = some ((subnamesOf "a/b:c").getD 0 "") :=
  ⟨(get_name_bounds_check ⟨"a/b:c"⟩ 5).1 (by decide),
   (get_name_bounds_check ⟨"a/b:c"⟩ 0).2.1 (by decide),
   (get_name_bounds_check ⟨"a/b:c"⟩ 7).2.2.1 (by decide),
   (get_name_bounds_check ⟨"a/b:c"⟩ 0).2.2.2.1 (by decide)⟩

/-- Claim C7: two paths constructed from terminator-equivalent source texts are
equal under the path equality operator and hash identically. -/
theorem terminator_equivalent_eq_hash :
    ∀ s t : String, truncAtNul s = truncAtNul t →
      nodePathEq (NodePath.fromStr s) (NodePath.fromStr t) = true ∧
      NodePath.hash (NodePath.fromStr s) = NodePath.hash (NodePath.fromStr t) := by
  intro s t h
  constructor
  · simp [nodePathEq, NodePath.fromStr, NodePath.fromGString, NodePath.fromGStringRef,
      GString.fromStr, h]
  · simp [NodePath.hash, NodePath.fromStr, NodePath.fromGString, NodePath.fromGStringRef,
      GString.fromStr, h]

/-- Witness for C7 at the texts "x" and "x\x00y" from the spec. -/
theorem terminator_equivalent_eq_hash_witness :
    nodePathEq (NodePath.fromStr "x") (NodePath.fromStr "x\x00y") = true ∧
    NodePath.hash (NodePath.fromStr "x") = NodePath.hash (NodePath.fromStr "x\x00y") :=
  terminator_equivalent_eq_hash "x" "x\x00y" (by decide)

/-- Claim C8: constructing a path from any source text and rendering it via
display yields the source text truncated at its first embedded terminator;
in particular "a/b\x00ignored" displays as "a/b". -/
theorem display_round_trip_truncation :
    ∀ s : String,
      NodePath.display (NodePath.fromStr s) = truncAtNul s ∧
      NodePath.display (NodePath.fromStr "a/b\x00ignored") = "a/b" := by
  intro s
  exact ⟨rfl, by decide⟩

/-- Claim C9: every conversion into `NodePath` from an interned name or host
text routes through the canonical `GString` constructor, and the owned-value
conversions equal the corresponding by-reference conversions. -/
theorem conversion_routing_canonical :
    ∀ (n : StringName) (s : String) (g : GString),
      NodePath.fromStringName n = NodePath.fromGString (GString.fromStringName n) ∧
      NodePath.fromStringNameRef n = NodePath.fromGString (GString.fromStringNameRef n) ∧
      NodePath.fromStringName n = NodePath.fromStringNameRef n ∧
      NodePath.fromStr s = NodePath.fromGString (GString.fromStr s) ∧
      NodePath.fromString s = NodePath.fromStr s ∧
      NodePath.fromStringRef s = NodePath.fromStr s ∧
      NodePath.fromGString g = NodePath.fromGStringRef g :=
  fun _ _ _ => ⟨rfl, rfl, rfl, rfl, rfl, rfl, rfl⟩

/- Dynamic call dispatcher and call error model.

The dispatcher, the `CallError` type and their rendering live outside the
repository sources (only the integration tests in
`itest/rust/src/object_tests/dynamic_call_test.rs` are present); they are
modelled from the specification, with the tests fixing the exact rendered
messages and the reflective method tables. -/

/-- Modelled from the spec: the dynamic tagged-union value (`Variant`),
restricted to the kinds the tests exercise. -/
inductive Variant where
  | nil
  | vInt (n : Int)
  | vString (s : String)

/-- The engine type tag of a dynamic value, as printed in diagnostics. -/
def Variant.typeName : Variant → String
  | .nil => "NIL"
  | .vInt _ => "INT"
  | .vString _ => "STRING"

/-- The debug rendering of a dynamic value used inside call expressions. -/
def Variant.debugRepr : Variant → String
  | .nil => "null"
  | .vInt n => toString n
  | .vString s => "\"" ++ s ++ "\""

/-- A declared parameter: its host-side type name and its engine type tag. -/
structure ParamDecl where
  rustTy : String
  variantTy : String

/-- Modelled from the spec: one entry of a receiver's reflective method table —
declaring class, method name, parameter list, whether the method is
host-defined (a `#[func]`) or engine-native, and an optional unrecovered
runtime fault its body raises. -/
structure MethodDecl where
  className : String
  name : String
  params : List ParamDecl
  isHostDefined : Bool
  panicMsg : Option String

/-- Modelled from the spec: the chainable call error — a conversion-error leaf
or one failed call layer with optional per-layer reason and nested source. -/
inductive ErrorChain where
  | convErr (rendered : String)
  | callErr (cls : Option String) (mth : String) (argsRepr : String)
      (reason : Option String) (src : Option ErrorChain)

/-- `CallError::class_name()`. -/
def ErrorChain.class_name : ErrorChain → Option String
  | .convErr _ => none
  | .callErr c _ _ _ _ => c

/-- `CallError::method_name()`. -/
def ErrorChain.method_name : ErrorChain → String
  | .convErr _ => ""
  | .callErr _ m _ _ _ => m

/-- `CallError::source()`. -/
def ErrorChain.source : ErrorChain → Option ErrorChain
  | .convErr _ => none
  | .callErr _ _ _ _ s => s

/-- The reason carried by the innermost element of the chain. -/
def ErrorChain.finalReason : ErrorChain → String
  | .convErr m => m
  | .callErr _ _ _ r s =>
    match s with
    | some e => e.finalReason
    | none =>
      match r with
      | some m => m
      | none => ""

/-- The call expression of one error layer, e.g. `ObjPayload::take_1_int()`. -/
def callExpr (cls : Option String) (mth argsRepr : String) : String :=
  (match cls with
   | some c => c ++ "::"
   | none => "") ++ mth ++ "(" ++ argsRepr ++ ")"

/-- Renders the chained source layers below the top level. -/
def renderTail : ErrorChain → String
  | .convErr m => "\n  Source: " ++ m
  | .callErr cls mth ar r s =>
    "\n  Source: " ++ callExpr cls mth ar ++
    (match r with
     | some m => "\n    Reason: " ++ m
     | none => "") ++
    (match s with
     | some e => renderTail e
     | none => "")

/-- Full human-readable rendering of a call error (its `Display`). -/
def ErrorChain.render : ErrorChain → String
  | .convErr m => m
  | .callErr cls mth ar r s =>
    "godot-rust function call failed: " ++ callExpr cls mth ar ++
    (match r with
     | some m => "\n    Reason: " ++ m
     | none => "") ++
    (match s with
     | some e => renderTail e
     | none => "")

/-- The argument rendering of the outer `Object::call` expression:
the method name as `&"name"`, then the varargs in debug form. -/
def outerArgsRepr (mth : String) (args : List Variant) : String :=
  "&\"" ++ mth ++ "\"" ++
  (if args.isEmpty then ""
   else ", [va] " ++ joinWith ", " (args.map Variant.debugRepr))

/-- The top-level error layer: every failure surfaces on `Object::call`. -/
def outerErr (mth : String) (args : List Variant) (reason : Option String)
    (src : Option ErrorChain) : ErrorChain :=
  ErrorChain.callErr (some "Object") "call" (outerArgsRepr mth args) reason src

/-- English plural suffix for the arity diagnostic counts. -/
def pluralSuffix (n : Nat) : String :=
  if n = 1 then "" else "s"

/-- The arity-mismatch reason line, adapting number to each count. -/
def arityReason (declared received : Nat) : String :=
  "function has " ++ toString declared ++ " parameter" ++ pluralSuffix declared ++
  ", but received " ++ toString received ++ " argument" ++ pluralSuffix received

/-- The host-side per-parameter conversion failure reason, zero-based. -/
def hostParamReason (idx : Nat) (rustTy : String) : String :=
  "parameter #" ++ toString idx ++ " (" ++ rustTy ++ ") conversion"

/-- The rendered conversion error carrying expected and actual type/value. -/
def convErrRendered (expected : String) (actual : Variant) : String :=
  "expected type " ++ expected ++ ", got " ++ actual.typeName ++ ": " ++ actual.debugRepr

/-- Modelled from the spec: the engine-reported per-parameter failure reason for
engine-native methods; the engine numbers the parameter one past the zero-based
position (the tests fix `parameter #1` for the first parameter). -/
def engineParamReason (idx : Nat) (expected : String) (actual : Variant) : String :=
  "parameter #" ++ toString (idx + 1) ++ " conversion -- expected type " ++
  expected ++ ", got " ++ actual.typeName

/-- Resolves a method name against a receiver's reflective method table. -/
def lookupMethod (table : List MethodDecl) (mth : String) : Option MethodDecl :=
  table.find? (fun m => m.name == mth)

/-- Finds the first parameter position whose argument fails `from_dynamic`
against the declared type (a declared `VARIANT` accepts anything), counting
from `i`. -/
def firstMismatch : List ParamDecl → List Variant → Nat → Option (Nat × ParamDecl × Variant)
  | [], _, _ => none
  | _, [], _ => none
  | p :: ps, a :: more, i =>
    if p.variantTy == "VARIANT" || a.typeName == p.variantTy then
      firstMismatch ps more (i + 1)
    else
      some (i, p, a)

/-- Modelled from the spec: the validation a dynamic call performs after method
resolution — `none` on success, otherwise the reason/source pair to attach to
the top-level error. Arity is compared before any argument is converted; for
host-defined methods failures are wrapped in a nested per-method error layer,
while engine-native failures surface as a reason on the top layer. -/
def dispatchCheck (m : MethodDecl) (args : List Variant) :
    Option (Option String × Option ErrorChain) :=
  if args.length = m.params.length then
    match firstMismatch m.params args 0 with
    | some (i, p, a) =>
      if m.isHostDefined then
        some (none, some (ErrorChain.callErr (some m.className) m.name ""
          (some (hostParamReason i p.rustTy))
          (some (ErrorChain.convErr (convErrRendered p.variantTy a)))))
      else
        some (some (engineParamReason i p.variantTy a), none)
    | none =>
      match m.panicMsg with
      | some pm =>
        some (none, some (ErrorChain.callErr (some m.className) m.name ""
          (some ("[panic]  " ++ pm)) none))
      | none => none
  else
    if m.isHostDefined then
      some (none, some (ErrorChain.callErr (some m.className) m.name ""
        (some (arityReason m.params.length args.length)) none))
    else
      some (some (arityReason m.params.length args.length), none)

namespace GObject

/-- Modelled from the spec: `Object::try_call` — resolve the method, validate
arity then per-argument conversion, run the body; every failure is wrapped in a
top-level error naming `Object::call`. -/
def try_call (table : List MethodDecl) (mth : String) (args : List Variant) :
    Except ErrorChain Variant :=
  match lookupMethod table mth with
  | none => .error (outerErr mth args (some ("Method " ++ mth ++ " not found")) none)
  | some m =>
    match dispatchCheck m args with
    | some (r, s) => .error (outerErr mth args r s)
    | none => .ok .nil

/-- Modelled from the spec: `Object::call` is `try_call(...).unwrap_or_else(panic)`;
the panic outcome is represented as the rendered message. -/
def call (table : List MethodDecl) (mth : String) (args : List Variant) :
    Except String Variant :=
  match try_call table mth args with
  | .ok v => .ok v
  | .error e => .error e.render

end GObject

/-- The method table of the test class `ObjPayload`:
`take_1_int(i64)` and the panicking `do_panic()`, both host-defined. -/
def objPayloadMethods : List MethodDecl :=
  [⟨"ObjPayload", "take_1_int", [⟨"i64", "INT"⟩], true, none⟩,
   ⟨"ObjPayload", "do_panic", [], true, some "do_panic exploded"⟩]

/-- The method table of the engine class `Node` as exercised by the tests:
`rpc_config(StringName, Variant)` and `set_name(String)`, engine-native. -/
def nodeMethods : List MethodDecl :=
  [⟨"Node", "rpc_config", [⟨"", "STRING"⟩, ⟨"", "VARIANT"⟩], false, none⟩,
   ⟨"Node", "set_name", [⟨"", "STRING"⟩], false, none⟩]

/-- The rendered message of a failed call result, `none` on success. -/
def renderResult (r : Except ErrorChain Variant) : Option String :=
  match r with
  | .error e => some e.render
  | .ok _ => none

/-- Declaring class and method name of the source of a failed call's error. -/
def errSourceInfo (r : Except ErrorChain Variant) : Option (Option String × String) :=
  match r with
  | .error e =>
    match e.source with
    | some s => some (s.class_name, s.method_name)
    | none => none
  | .ok _ => none

/-- The final reason of a failed call's error chain, `none` on success. -/
def finalReasonOf (r : Except ErrorChain Variant) : Option String :=
  match r with
  | .error e => some e.finalReason
  | .ok _ => none

/- Theorems for the dynamic-call claims. -/

/-- Claim C4: `call` and `try_call` never diverge — whenever `try_call` fails,
`call` on identical arguments panics with exactly the error's rendering, and
whenever `try_call` succeeds, `call` returns the same value. -/
theorem call_try_call_agree :
    ∀ (table : List MethodDecl) (mth : String) (args : List Variant),
      (∀ e, GObject.try_call table mth args = .error e →
          GObject.call table mth args = .error e.render) ∧
      (∀ v, GObject.try_call table mth args = .ok v →
          GObject.call table mth args = .ok v) := by
  intro table mth args
  constructor
  · intro e h
    unfold GObject.call
    rw [h]
  · intro v h
    unfold GObject.call
    rw [h]

/-- Witness for C4 at the failing call `take_1_int` with no arguments. -/
theorem call_try_call_agree_witness :
    GObject.call objPayloadMethods "take_1_int" [] =
      .error (ErrorChain.render (outerErr "take_1_int" [] none
        (some (ErrorChain.callErr (some "ObjPayload") "take_1_int" ""
          (some (arityReason 1 0)) none)))) :=
  (call_try_call_agree objPayloadMethods "take_1_int" []).1 _ rfl

/-- Claim C5: every failed dynamic call surfaces a top-level error naming the
outer call (`class_name` is `Object`, `method_name` is `call`), while the
nested source errors name the actual originating class and method
(`ObjPayload::take_1_int`, `ObjPayload::do_panic`). -/
theorem call_error_layers :
    (∀ (table : List MethodDecl) (mth : String) (args : List Variant) (e : ErrorChain),
        GObject.try_call table mth args = .error e →
        e.class_name = some "Object" ∧ e.method_name = "call") ∧
    errSourceInfo (GObject.try_call objPayloadMethods "take_1_int" [Variant.vString "string"]) =
      some (some "ObjPayload", "take_1_int") ∧
    errSourceInfo (GObject.try_call objPayloadMethods "do_panic" []) =
      some (some "ObjPayload", "do_panic") ∧
    errSourceInfo (GObject.try_call objPayloadMethods "take_1_int" []) =
      some (some "ObjPayload", "take_1_int") := by
  refine ⟨?_, by decide, by decide, by decide⟩
  intro table mth args e h
  unfold GObject.try_call at h
  rcases hl : lookupMethod table mth with _ | m
  · rw [hl] at h
    simp at h
    subst h
    exact ⟨rfl, rfl⟩
  · rw [hl] at h
    dsimp only [] at h
    rcases hd : dispatchCheck m args with _ | ⟨r, s⟩
    · rw [hd] at h
      simp at h
    · rw [hd] at h
      simp at h
      subst h
      exact ⟨rfl, rfl⟩

/-- Witness for C5 at the failing call `take_1_int` with no arguments. -/
theorem call_error_layers_witness :
    ErrorChain.class_name (outerErr "take_1_int" [] none
      (some (ErrorChain.callErr (some "ObjPayload") "take_1_int" ""
        (some (arityReason 1 0)) none))) = some "Object" ∧
    ErrorChain.method_name (outerErr "take_1_int" [] none
      (some (ErrorChain.callErr (some "ObjPayload") "take_1_int" ""
        (some (arityReason 1 0)) none))) = "call" :=
  call_error_layers.1 objPayloadMethods "take_1_int" [] _ rfl

/-- Claim C6: `try_call("take_1_int", [])` on the one-parameter method fails,
its rendered message ends in "function has 1 parameter, but received 0
arguments", and an arity mismatch is reported with both counts before any
argument is converted — ill-typed surplus arguments still yield the arity
error. -/
theorem too_few_args_arity_error :
    renderResult (GObject.try_call objPayloadMethods "take_1_int" []) =
      some "godot-rust function call failed: Object::call(&\"take_1_int\")\n  Source: ObjPayload::take_1_int()\n    Reason: function has 1 parameter, but received 0 arguments" ∧
    strEndsWith "godot-rust function call failed: Object::call(&\"take_1_int\")\n  Source: ObjPayload::take_1_int()\n    Reason: function has 1 parameter, but received 0 arguments"
      "function has 1 parameter, but received 0 arguments" = true ∧
    (∀ a b : Variant,
      GObject.try_call objPayloadMethods "take_1_int" [a, b] =
        .error (outerErr "take_1_int" [a, b] none
          (some (ErrorChain.callErr (some "ObjPayload") "take_1_int" ""
            (some (arityReason 1 2)) none)))) :=
  ⟨by decide, by decide, fun a b => rfl⟩

/-- Claim C3, counterexample: for the engine-native call
`set_name([123])` the only failing parameter is at zero-based position 0, yet
the error reads "parameter #1" and contains no "parameter #0", and it carries
no nested source error. -/
theorem param_index_zero_based_counterexample :
    renderResult (GObject.try_call nodeMethods "set_name" [Variant.vInt 123]) =
      some "godot-rust function call failed: Object::call(&\"set_name\", [va] 123)\n    Reason: parameter #1 conversion -- expected type STRING, got INT" ∧
    containsSub "godot-rust function call failed: Object::call(&\"set_name\", [va] 123)\n    Reason: parameter #1 conversion -- expected type STRING, got INT"
      "parameter #0" = false ∧
    containsSub "godot-rust function call failed: Object::call(&\"set_name\", [va] 123)\n    Reason: parameter #1 conversion -- expected type STRING, got INT"
      "parameter #1" = true ∧
    errSourceInfo (GObject.try_call nodeMethods "set_name" [Variant.vInt 123]) = none :=
  ⟨by decide, by decide, by decide, by decide⟩

/-- Claim C3 as amended: for host-defined methods a conversion failure names the
zero-based parameter index (the first parameter is "parameter #0") with the
expected type and a nested source carrying the actual type/value, and
`try_call("take_1_int", ["string"])` yields a chain whose final reason states
"expected type INT, got STRING"; engine-native methods instead report the
parameter one past the zero-based position ("parameter #1" for the first). -/
theorem param_index_amended :
    (∀ s : String,
      GObject.try_call objPayloadMethods "take_1_int" [Variant.vString s] =
        .error (outerErr "take_1_int" [Variant.vString s] none
          (some (ErrorChain.callErr (some "ObjPayload") "take_1_int" ""
            (some (hostParamReason 0 "i64"))
            (some (ErrorChain.convErr (convErrRendered "INT" (Variant.vString s)))))))) ∧
    hostParamReason 0 "i64" = "parameter #0 (i64) conversion" ∧
    renderResult (GObject.try_call objPayloadMethods "take_1_int" [Variant.vString "string"]) =
      some "godot-rust function call failed: Object::call(&\"take_1_int\", [va] \"string\")\n  Source: ObjPayload::take_1_int()\n    Reason: parameter #0 (i64) conversion\n  Source: expected type INT, got STRING: \"string\"" ∧
    finalReasonOf (GObject.try_call objPayloadMethods "take_1_int" [Variant.vString "string"]) =
      some "expected type INT, got STRING: \"string\"" ∧
    containsSub "expected type INT, got STRING: \"string\"" "expected type INT, got STRING" = true ∧
    engineParamReason 0 "STRING" (Variant.vInt 123) =
      "parameter #1 conversion -- expected type STRING, got INT" :=
  ⟨fun s => rfl, by decide, by decide, by decide, by decide, by decide⟩

/-- Claim C10: the arity-mismatch reason adapts English number to each count
independently — "parameter" is singular exactly when the declared count is 1
and "argument" is singular exactly when the received count is 1 — matching the
four messages the tests fix, also in the full rendered errors. -/
theorem arity_reason_pluralization :
    (∀ p a : Nat, arityReason p a =
      "function has " ++ toString p ++ " parameter" ++ (if p = 1 then "" else "s") ++
      ", but received " ++ toString a ++ " argument" ++ (if a = 1 then "" else "s")) ∧
    arityReason 1 0 = "function has 1 parameter, but received 0 arguments" ∧
    arityReason 1 2 = "function has 1 parameter, but received 2 arguments" ∧
    arityReason 2 1 = "function has 2 parameters, but received 1 argument" ∧
    arityReason 2 3 = "function has 2 parameters, but received 3 arguments" ∧
    renderResult (GObject.try_call nodeMethods "rpc_config" [Variant.vString "some_method"]) =
      some "godot-rust function call failed: Object::call(&\"rpc_config\", [va] \"some_method\")\n    Reason: function has 2 parameters, but received 1 argument" ∧
    renderResult (GObject.try_call nodeMethods "rpc_config"
        [Variant.vString "some_method", Variant.nil, Variant.vInt 123]) =
      some "godot-rust function call failed: Object::call(&\"rpc_config\", [va] \"some_method\", null, 123)\n    Reason: function has 2 parameters, but received 3 arguments" :=
  ⟨fun p a => by simp [arityReason, pluralSuffix], by decide, by decide, by decide,
   by decide, by decide, by decide⟩
